import Mathlib

/-!
Verification of the dbchat MCP test harness (src/test-mcp-protocol.py and
src/test-mcp-server.py) against its natural-language specification.

The two Python driver scripts are shallowly embedded:
* JSON values (`json.loads` output) become the inductive `Json`; Python
  dictionaries become association lists with unique keys (`PyDict`).
* Python `==` on JSON-decoded values becomes `pyEq` (structural, with
  booleans comparing equal to their integer images 0/1, as in Python where
  `bool` is a subclass of `int`; dictionary comparison is key-based and
  order-insensitive).
* Python operations that can raise (`key in value` and `value[key]` on a
  value of unexpected type) are embedded in `Except PyErr`; code whose
  accesses are all guarded is embedded as pure functions.
* The child process's stdout is embedded as a list of pre-tokenised lines
  (`RawLine`): a line is empty after `strip()`, fails `json.loads`, or
  parses to a `Json` value.  `readline()` at end of file returns the empty
  string without consuming anything, which the embedding mirrors.
-/

set_option maxRecDepth 8000

/-- JSON values as produced by Python's `json.loads` (floats never appear in
the harness's own data and are not modelled). -/
inductive Json where
  | null
  | bool (b : Bool)
  | int (n : Int)
  | str (s : String)
  | arr (elems : List Json)
  | obj (fields : List (String × Json))

/-- A Python dictionary with string keys, as built by `json.loads` for a
JSON object: an association list with unique keys. -/
abbrev PyDict := List (String × Json)

mutual

/-- Python `==` on JSON-decoded values.  `bool` is a subclass of `int` in
Python, so `True == 1` and `False == 0`; lists compare pointwise; dicts
compare by key set and per-key values, independent of insertion order. -/
def pyEq : Json → Json → Bool
  | .null, .null => true
  | .bool a, .bool c => a == c
  | .bool a, .int n => (if a then (1 : Int) else 0) == n
  | .int m, .bool c => m == (if c then (1 : Int) else 0)
  | .int m, .int n => m == n
  | .str s, .str t => s == t
  | .arr xs, .arr ys => pyEqList xs ys
  | .obj fs, .obj gs => fs.length == gs.length && pyEqFields fs gs
  | _, _ => false
termination_by a _ => sizeOf a

/-- Pointwise Python equality of two lists. -/
def pyEqList : List Json → List Json → Bool
  | [], [] => true
  | x :: xs, y :: ys => pyEq x y && pyEqList xs ys
  | _, _ => false
termination_by xs _ => sizeOf xs

/-- Every key of the first dict is present in the second with a
Python-equal value (with equal lengths this is Python dict equality). -/
def pyEqFields : List (String × Json) → List (String × Json) → Bool
  | [], _ => true
  | (k, v) :: fs, gs => pyEqOpt v (List.lookup k gs) && pyEqFields fs gs
termination_by fs _ => sizeOf fs

/-- Compare a value against the result of a dict lookup. -/
def pyEqOpt : Json → Option Json → Bool
  | _, none => false
  | v, some w => pyEq v w
termination_by v _ => sizeOf v + 1

end

/-- Python `isinstance(x, int)` on a JSON-decoded value: true for ints and
for booleans (`bool` is a subclass of `int`). -/
def pyIsInt : Json → Bool
  | .int _ => true
  | .bool _ => true
  | _ => false

/-- Python `isinstance(x, str)` on a JSON-decoded value. -/
def pyIsStr : Json → Bool
  | .str _ => true
  | _ => false

/-- Python `isinstance(x, dict)` on a JSON-decoded value. -/
def Json.isObj : Json → Bool
  | .obj _ => true
  | _ => false

/-- Python `x is None` on a JSON-decoded value (json null is Python None). -/
def Json.isNull : Json → Bool
  | .null => true
  | _ => false

/-- Python `d.get(k)`: the value at `k`, or None when absent. -/
def dictGet (d : PyDict) (k : String) : Json :=
  (List.lookup k d).getD Json.null

/-- Exceptions the embedded Python fragments can raise. -/
inductive PyErr where
  | typeError
  | keyError

/-- Python `s.startswith(p)`. -/
def pyStartsWith (s p : String) : Bool := p.data.isPrefixOf s.data

/-- Substring test on character lists, for Python `needle in haystack` on
strings (the empty needle is contained in every string, as in Python). -/
def strInfix : List Char → List Char → Bool
  | needle, [] => needle.isEmpty
  | needle, c :: rest => needle.isPrefixOf (c :: rest) || strInfix needle rest

/-- Python `key in value` for a string key and an arbitrary value: key test
on dicts, element equality on lists, substring test on strings, and
TypeError on null, booleans and numbers. -/
def pyIn (key : String) (v : Json) : Except PyErr Bool :=
  match v with
  | .obj fs => .ok (List.lookup key fs).isSome
  | .arr xs => .ok (xs.any (fun x => pyEq (.str key) x))
  | .str s => .ok (strInfix key.data s.data)
  | _ => .error .typeError

/-- Python `value[key]` for a string key: dict lookup (KeyError when the key
is absent), TypeError on anything that is not a dict. -/
def pyGetItem (v : Json) (key : String) : Except PyErr Json :=
  match v with
  | .obj fs =>
    match List.lookup key fs with
    | some x => .ok x
    | none => .error .keyError
  | _ => .error .typeError

/-- One violation per `errors.append(...)` site of the validators in
src/test-mcp-protocol.py; the human-readable message text is abstracted,
the dynamic data each message interpolates is kept. -/
inductive Viol where
  | badJsonrpc
  | idMismatch (expected actual : Json)
  | missingId (expected : Json)
  | neitherResultNorError
  | bothResultAndError
  | errorNotObject
  | errorMissingCode
  | errorCodeNotInt
  | errorMissingMessage
  | errorMessageNotString
  | missingField (path : String)
  | initMissing (field : String)
  | capsNotObject
  | toolsMissing
  | toolsNotArray
  | toolNotObject (i : Nat)
  | toolMissing (i : Nat) (field : String)
  | contentMissing
  | contentNotArray

/-- Lines 312-314 of src/test-mcp-protocol.py: `response.get("jsonrpc") != "2.0"`. -/
def jsonrpcCheck (response : PyDict) : List Viol :=
  if pyEq (dictGet response "jsonrpc") (.str "2.0") then [] else [.badJsonrpc]

/-- Lines 316-323 of src/test-mcp-protocol.py: if `"id" in response` the
echoed id must Python-equal the expected one; a missing id is flagged only
when `expected_id is not None`. -/
def idCheck (response : PyDict) (expected_id : Json) : List Viol :=
  match List.lookup "id" response with
  | some actual => if pyEq expected_id actual then [] else [.idMismatch expected_id actual]
  | none => if expected_id.isNull then [] else [.missingId expected_id]

/-- Lines 325-332 of src/test-mcp-protocol.py: exactly one of result/error. -/
def resultErrorCheck (response : PyDict) : List Viol :=
  let has_result := (List.lookup "result" response).isSome
  let has_error := (List.lookup "error" response).isSome
  if !has_result && !has_error then [.neitherResultNorError]
  else if has_result && has_error then [.bothResultAndError]
  else []

/-- Lines 340-343 of src/test-mcp-protocol.py: `code` present and an
integer (`isinstance(..., int)`, which accepts booleans). -/
def codeCheck (fs : PyDict) : List Viol :=
  match List.lookup "code" fs with
  | none => [Viol.errorMissingCode]
  | some c => if pyIsInt c then [] else [Viol.errorCodeNotInt]

/-- Lines 345-348 of src/test-mcp-protocol.py: `message` present and a string. -/
def msgCheck (fs : PyDict) : List Viol :=
  match List.lookup "message" fs with
  | none => [Viol.errorMissingMessage]
  | some m => if pyIsStr m then [] else [Viol.errorMessageNotString]

/-- Lines 334-348 of src/test-mcp-protocol.py: the error value must be a
dict with an integer `code` and a string `message` (all accesses there are
guarded, so this block never raises). -/
def errorStructCheck (response : PyDict) : List Viol :=
  match List.lookup "error" response with
  | none => []
  | some e =>
    match e with
    | .obj fs => codeCheck fs ++ msgCheck fs
    | _ => [Viol.errorNotObject]

/-- `validate_json_rpc` of src/test-mcp-protocol.py (lines 308-350): the
four check blocks run in source order, each appending to `errors`. -/
def validate_json_rpc (response : PyDict) (expected_id : Json) : List Viol :=
  jsonrpcCheck response ++ idCheck response expected_id ++
    resultErrorCheck response ++ errorStructCheck response

/-- The inner loop of `validate_expected_fields` (lines 360-365): walk one
dot-separated path through nested dicts; `false` when some step is not a
dict or lacks the key (the Python loop then appends one error and breaks). -/
def walkPath : Json → List String → Bool
  | _, [] => true
  | current, part :: rest =>
    match current with
    | .obj fs =>
      match List.lookup part fs with
      | some next => walkPath next rest
      | none => false
    | _ => false

/-- `validate_expected_fields` of src/test-mcp-protocol.py (lines 352-367):
each unresolved dotted path contributes one violation; the loop never
stops early across paths. -/
def validate_expected_fields (response : PyDict) (expected_fields : List String) : List Viol :=
  match expected_fields with
  | [] => []
  | f :: rest =>
    (if walkPath (Json.obj response) (f.splitOn ".") then [] else [Viol.missingField f]) ++
      validate_expected_fields response rest

/-- Sequence two fallible violation lists, keeping Python's left-to-right
raise order. -/
def eappend (a b : Except PyErr (List Viol)) : Except PyErr (List Viol) :=
  match a with
  | .error e => .error e
  | .ok xs =>
    match b with
    | .error e => .error e
    | .ok ys => .ok (xs ++ ys)

/-- One turn of the loop at lines 377-380 of src/test-mcp-protocol.py:
`if field not in result: errors.append(...)` — `result` is unguarded, so
the membership test itself may raise TypeError. -/
def reqField (result : Json) (field : String) : Except PyErr (List Viol) :=
  match pyIn field result with
  | .error e => .error e
  | .ok true => .ok []
  | .ok false => .ok [Viol.initMissing field]

/-- Lines 383-386 of src/test-mcp-protocol.py: capabilities must be a dict
when present. -/
def capsCheck (result : Json) : Except PyErr (List Viol) :=
  match pyIn "capabilities" result with
  | .error e => .error e
  | .ok false => .ok []
  | .ok true =>
    match pyGetItem result "capabilities" with
    | .error e => .error e
    | .ok caps => .ok (if caps.isObj then [] else [Viol.capsNotObject])

/-- The Initialize Protocol branch of `validate_mcp_specific`
(lines 373-386), with the three-element field loop unrolled. -/
def vmsInit (result : Json) : Except PyErr (List Viol) :=
  eappend (reqField result "protocolVersion")
    (eappend (reqField result "capabilities")
      (eappend (reqField result "serverInfo") (capsCheck result)))

/-- Lines 397-405 of src/test-mcp-protocol.py: per-tool checks (`tool` is
guarded by `isinstance(tool, dict)`, so this loop never raises). -/
def checkTools : List Json → Nat → List Viol
  | [], _ => []
  | t :: rest, i =>
    (match t with
     | .obj fs =>
       (if (List.lookup "name" fs).isSome then [] else [Viol.toolMissing i "name"]) ++
         (if (List.lookup "description" fs).isSome then [] else [Viol.toolMissing i "description"])
     | _ => [Viol.toolNotObject i]) ++ checkTools rest (i + 1)

/-- The List Tools branch of `validate_mcp_specific` (lines 388-405). -/
def vmsTools (result : Json) : Except PyErr (List Viol) :=
  match pyIn "tools" result with
  | .error e => .error e
  | .ok false => .ok [Viol.toolsMissing]
  | .ok true =>
    match pyGetItem result "tools" with
    | .error e => .error e
    | .ok (Json.arr tools) => .ok (checkTools tools 0)
    | .ok _ => .ok [Viol.toolsNotArray]

/-- The Call Query Tool branch of `validate_mcp_specific` (lines 407-413). -/
def vmsQuery (result : Json) : Except PyErr (List Viol) :=
  match pyIn "content" result with
  | .error e => .error e
  | .ok false => .ok [Viol.contentMissing]
  | .ok true =>
    match pyGetItem result "content" with
    | .error e => .error e
    | .ok (Json.arr _) => .ok []
    | .ok _ => .ok [Viol.contentNotArray]

/-- `validate_mcp_specific` of src/test-mcp-protocol.py (lines 369-415).
Each branch of the Python `elif` chain requires `"result" in response` and
a distinct test-name prefix; the prefixes are mutually exclusive. -/
def validate_mcp_specific (name : String) (response : PyDict) : Except PyErr (List Viol) :=
  match List.lookup "result" response with
  | none => .ok []
  | some result =>
    if pyStartsWith name "Initialize Protocol" then vmsInit result
    else if pyStartsWith name "List Tools" then vmsTools result
    else if pyStartsWith name "Call Query Tool" then vmsQuery result
    else .ok []

/-- C7 counterexample: on a response whose `result` is the number 5,
`validate_mcp_specific` raises TypeError (Python's `"protocolVersion" not in
result` on an int) instead of returning a violation list — the outer handler
of `run_test_case` then reports ERROR. -/
theorem validators_raise_on_int_result_cex :
    validate_mcp_specific "Initialize Protocol"
        [("jsonrpc", Json.str "2.0"), ("id", Json.int 1), ("result", Json.int 5)]
      = .error PyErr.typeError := rfl

/-- One line of the child's stdout after `readline()` + `strip()`: empty
after stripping, non-empty but rejected by `json.loads`, or parsed JSON. -/
inductive RawLine where
  | empty
  | malformed
  | json (j : Json)

/-- What the loop body at lines 122-136 of src/test-mcp-server.py records
for one read line: the parsed object, or None for an empty line
(`readline` at EOF included) or a JSON parse failure. -/
def lineToResponse : RawLine → Option Json
  | .empty => none
  | .malformed => none
  | .json j => some j

/-- Python `"id" in request`: field presence, never the field's value. -/
def hasId (m : PyDict) : Bool := (List.lookup "id" m).isSome

/-- The send/read loop of `send_mcp_requests_session`
(src/test-mcp-server.py lines 111-136): each request is written; a request
whose dict has no `"id"` key records None and performs no read; otherwise
exactly one `readline()` happens (at EOF it returns `""` without consuming
anything).  Returns the recorded responses, the unconsumed rest of the
stdout stream, and the number of `readline()` calls performed. -/
def sessionLoop : List PyDict → List RawLine → List (Option Json) × List RawLine × Nat
  | [], stream => ([], stream, 0)
  | req :: rest, stream =>
    if hasId req then
      match stream with
      | [] =>
        let r := sessionLoop rest []
        (none :: r.1, r.2.1, r.2.2 + 1)
      | line :: stream2 =>
        let r := sessionLoop rest stream2
        (lineToResponse line :: r.1, r.2.1, r.2.2 + 1)
    else
      let r := sessionLoop rest stream
      (none :: r.1, r.2.1, r.2.2)

/-- How one call of `send_mcp_requests_session` terminates: the loop ran
against the child's stdout (which is then torn down, discarding unconsumed
lines), or an exception escaped to the handlers at lines 150-157 — launch
failure, a timeout, or a broken pipe mid-loop. -/
inductive SessionPath where
  | normal (stream : List RawLine)
  | aborted (n : Nat)

/-- `send_mcp_requests_session` of src/test-mcp-server.py (lines 91-157):
on the normal path the loop's responses are returned and the leftover
stream is dropped with the process; on the exception paths the handlers
return `[None] * len(requests)`. -/
def send_mcp_requests_session (requests : List PyDict) (path : SessionPath) :
    List (Option Json) :=
  match path with
  | .normal stream => (sessionLoop requests stream).1
  | .aborted _ => List.replicate requests.length none

/-- The three per-test outcomes of src/test-mcp-protocol.py. -/
inductive TestResult where
  | PASS
  | FAIL
  | ERROR

/-- `run_test_case` of src/test-mcp-protocol.py (lines 417-498), for the
path where the server process exited with code 0; the input is the first
line of its stdout.  A notification expecting no response passes exactly
when that line is blank; a request hits the full validation pipeline, with
any exception inside it (a non-dict reply makes `response.get` raise
AttributeError; `validate_mcp_specific` can raise TypeError) caught by the
outer handler and turned into ERROR.  Returns (result, recorded response). -/
def run_test_case (request : PyDict) (name : String) (expected_fields : List String)
    (is_notification should_have_response : Bool) (firstLine : RawLine) :
    TestResult × Option Json :=
  if is_notification && !should_have_response then
    match firstLine with
    | .empty => (.PASS, none)
    | .malformed => (.FAIL, none)
    | .json j => (.FAIL, some j)
  else
    match firstLine with
    | .empty => (.ERROR, none)
    | .malformed => (.ERROR, none)
    | .json j =>
      match j with
      | .obj fields =>
        match validate_mcp_specific name fields with
        | .error _ => (.ERROR, some j)
        | .ok vms =>
          let errs := validate_json_rpc fields (dictGet request "id") ++
            validate_expected_fields fields expected_fields ++ vms
          (if errs.isEmpty then .PASS else .FAIL, some j)
      | _ => (.ERROR, some j)

/-- The counter updates of `run_all_tests` (lines 526-536 of
src/test-mcp-protocol.py): each test case lands in exactly one bucket. -/
def countResults (rs : List TestResult) (r : TestResult) : Nat :=
  rs.countP (fun x =>
    match x, r with
    | .PASS, .PASS => true
    | .FAIL, .FAIL => true
    | .ERROR, .ERROR => true
    | _, _ => false)

/-- The exit decision of `main` in src/test-mcp-protocol.py
(lines 647-652): `sys.exit(1)` when `failed > 0 or errors > 0`, else
`sys.exit(0)`. -/
def protocol_exit_code (rs : List TestResult) : Nat :=
  if 0 < countResults rs .FAIL || 0 < countResults rs .ERROR then 1 else 0

/-- The exit behaviour of `DatabaseMcpTester.run` in src/test-mcp-server.py
(lines 573-592) as a function of whether prerequisites held and of the
recorded per-test success flags: `sys.exit(1)` fires only when
`check_prerequisites` fails; after the tests run, `run` returns normally
and the interpreter exits 0 whatever `test_results` holds. -/
def server_run_exit_code (prereq_ok : Bool) (results : List Bool) : Nat :=
  if prereq_ok then 0 else 1

/-- The per-message notes of `validate_response` in src/test-mcp-server.py,
one constructor per returned message string (text abstracted, interpolated
data kept); `ok` is the empty string of the success returns. -/
inductive RespMsg where
  | noResponse
  | invalidJsonrpc
  | idMismatch (expected actual : Json)
  | missingBoth
  | hasBoth
  | serverError (e : Json)
  | missingKey (k : String)
  | ok

/-- The loop at lines 204-206 of src/test-mcp-server.py: return at the
first expected key not in `result` (an unguarded membership test that can
raise TypeError on a non-container result). -/
def checkKeys (result : Json) : List String → Except PyErr (Bool × RespMsg)
  | [] => .ok (true, .ok)
  | k :: rest =>
    match pyIn k result with
    | .error e => .error e
    | .ok true => checkKeys result rest
    | .ok false => .ok (false, .missingKey k)

/-- `validate_response` of src/test-mcp-server.py (lines 164-208).
`response` is None or a dict (`if not response` also catches the empty
dict); `expected_id` is `request.get("id")`, so a request id of json null
arrives as None and disables the id check (`if expected_id is not None`). -/
def validate_response (response : Option PyDict) (expected_id : Json)
    (expected_keys : List String) (allow_error : Bool) : Except PyErr (Bool × RespMsg) :=
  match response with
  | none => .ok (false, .noResponse)
  | some r =>
    if r.isEmpty then .ok (false, .noResponse)
    else if !pyEq (dictGet r "jsonrpc") (.str "2.0") then .ok (false, .invalidJsonrpc)
    else if !expected_id.isNull && !pyEq (dictGet r "id") expected_id then
      .ok (false, .idMismatch expected_id (dictGet r "id"))
    else
      let has_result := (List.lookup "result" r).isSome
      let has_error := (List.lookup "error" r).isSome
      if !has_result && !has_error then .ok (false, .missingBoth)
      else if has_result && has_error then .ok (false, .hasBoth)
      else if has_error then
        if allow_error then .ok (true, .ok) else .ok (false, .serverError (dictGet r "error"))
      else if !expected_keys.isEmpty && has_result then
        match List.lookup "result" r with
        | some result => checkKeys result expected_keys
        | none => .ok (true, .ok)
      else .ok (true, .ok)

/-- C6 counterexample: with a result missing both expected keys `contents`
and `rows`, `validate_response` of src/test-mcp-server.py returns at the
first missing key — a single message naming only `contents`, the key `rows`
never examined — against the claim that every unresolved field is reported
individually in one pass. -/
theorem first_missing_key_stops_validate_response_cex :
    validate_response
        (some [("jsonrpc", Json.str "2.0"), ("id", Json.int 1),
          ("result", Json.obj [("x", Json.int 0)])])
        (Json.int 1) ["contents", "rows"] false
      = .ok (false, RespMsg.missingKey "contents") := by
  simp [validate_response, dictGet, pyEq, Json.isNull, List.lookup, checkKeys, pyIn]

theorem sessionLoop_length (reqs : List PyDict) (stream : List RawLine) :
    (sessionLoop reqs stream).1.length = reqs.length := by
  induction reqs generalizing stream with
  | nil => simp [sessionLoop]
  | cons req rest ih =>
    by_cases h : hasId req
    · cases stream with
      | nil => simp [sessionLoop, h, ih]
      | cons line stream2 => simp [sessionLoop, h, ih]
    · simp [sessionLoop, h, ih]

theorem sessionLoop_reads (reqs : List PyDict) (stream : List RawLine) :
    (sessionLoop reqs stream).2.2 = reqs.countP (fun m => hasId m) := by
  induction reqs generalizing stream with
  | nil => simp [sessionLoop]
  | cons req rest ih =>
    by_cases h : hasId req
    · cases stream with
      | nil => simp [sessionLoop, h, ih, List.countP_cons]
      | cons line stream2 => simp [sessionLoop, h, ih, List.countP_cons]
    · simp [sessionLoop, h, ih, List.countP_cons]

theorem sessionLoop_rest (reqs : List PyDict) (stream : List RawLine) :
    (sessionLoop reqs stream).2.1 = stream.drop (reqs.countP (fun m => hasId m)) := by
  induction reqs generalizing stream with
  | nil => simp [sessionLoop]
  | cons req rest ih =>
    by_cases h : hasId req
    · cases stream with
      | nil => simp [sessionLoop, h, ih, List.countP_cons]
      | cons line stream2 => simp [sessionLoop, h, ih, List.countP_cons]
    · simp [sessionLoop, h, ih, List.countP_cons]

theorem sessionLoop_getD (reqs : List PyDict) (stream : List RawLine) (i : Nat)
    (d : Option Json) (hi : i < reqs.length) :
    (sessionLoop reqs stream).1.getD i d =
      if hasId (reqs.getD i []) then
        lineToResponse (stream.getD ((reqs.take i).countP (fun m => hasId m)) RawLine.empty)
      else none := by
  induction reqs generalizing stream i with
  | nil => simp at hi
  | cons req rest ih =>
    by_cases h : hasId req
    · cases stream with
      | nil =>
        cases i with
        | zero => simp [sessionLoop, h, lineToResponse]
        | succ n =>
          have hn : n < rest.length := by simpa using hi
          simp [sessionLoop, h, List.countP_cons]
          simpa [List.getD] using ih [] n hn
      | cons line stream2 =>
        cases i with
        | zero => simp [sessionLoop, h]
        | succ n =>
          have hn : n < rest.length := by simpa using hi
          simp [sessionLoop, h, List.countP_cons]
          simpa [List.getD] using ih stream2 n hn
    · cases i with
      | zero => simp [sessionLoop, h]
      | succ n =>
        have hn : n < rest.length := by simpa using hi
        simp [sessionLoop, h, List.countP_cons]
        simpa [List.getD] using ih stream n hn

/-- An initialize request carrying id 1, as in the harness's scenarios. -/
def reqInit : PyDict :=
  [("jsonrpc", Json.str "2.0"), ("id", Json.int 1), ("method", Json.str "initialize")]

/-- The initialized notification: no `"id"` field at all. -/
def notifMsg : PyDict :=
  [("jsonrpc", Json.str "2.0"), ("method", Json.str "notifications/initialized")]

/-- A tools/list request carrying id 3. -/
def reqTools : PyDict :=
  [("jsonrpc", Json.str "2.0"), ("id", Json.int 3), ("method", Json.str "tools/list")]

/-- A well-formed reply to `reqInit`. -/
def replyInit : Json :=
  Json.obj [("jsonrpc", Json.str "2.0"), ("id", Json.int 1), ("result", Json.obj [])]

/-- A reply a non-conformant server emits for the notification. -/
def replyNotif : Json :=
  Json.obj [("jsonrpc", Json.str "2.0"), ("id", Json.null),
    ("error", Json.obj [("code", Json.int (-32600)), ("message", Json.str "no id")])]

/-- A well-formed reply to `reqTools`. -/
def replyTools : Json :=
  Json.obj [("jsonrpc", Json.str "2.0"), ("id", Json.int 3),
    ("result", Json.obj [("tools", Json.arr [])])]

/-- C1: for every message in a scenario, `send_mcp_requests_session` performs
exactly one `readline()` for a message whose dict has an `"id"` key (whatever
its value, json null and the empty string included) and zero reads for a
message without one — the total read count is the number of id-carrying
messages, the unconsumed stream is exactly the sent-order prefix dropped —
and the i-th message's recorded reply is the stream line whose index is the
number of id-carrying messages before position i, so replies are consumed in
send order. -/
theorem correlator_reads_iff_id_present :
    ∀ (reqs : List PyDict) (stream : List RawLine),
      (sessionLoop reqs stream).2.2 = reqs.countP (fun m => hasId m)
      ∧ (sessionLoop reqs stream).1.length = reqs.length
      ∧ (sessionLoop reqs stream).2.1 = stream.drop (reqs.countP (fun m => hasId m))
      ∧ ∀ i, i < reqs.length →
          (sessionLoop reqs stream).1.getD i none =
            if hasId (reqs.getD i []) then
              lineToResponse
                (stream.getD ((reqs.take i).countP (fun m => hasId m)) RawLine.empty)
            else none := by
  intro reqs stream
  exact ⟨sessionLoop_reads reqs stream, sessionLoop_length reqs stream,
    sessionLoop_rest reqs stream, fun i hi => sessionLoop_getD reqs stream i none hi⟩

/-- Witness for C1: in a scenario request, notification, request with two
reply lines, the harness reads exactly 2 lines and the second request (index
2, one id-carrying message before it) receives the second line. -/
theorem correlator_reads_iff_id_present_applied :
    (sessionLoop [reqInit, notifMsg, reqTools]
        [RawLine.json replyInit, RawLine.json replyTools]).1.getD 2 none = some replyTools
    ∧ (sessionLoop [reqInit, notifMsg, reqTools]
        [RawLine.json replyInit, RawLine.json replyTools]).2.2 = 2 := by
  have h := correlator_reads_iff_id_present [reqInit, notifMsg, reqTools]
    [RawLine.json replyInit, RawLine.json replyTools]
  constructor
  · have h2 := h.2.2.2 2 (by decide)
    simpa [reqInit, notifMsg, reqTools, hasId, List.lookup, lineToResponse,
      List.countP_cons] using h2
  · simpa [reqInit, notifMsg, reqTools, hasId, List.lookup, List.countP_cons] using h.1

/-- C2 counterexample: a scenario of two requests and one notification where
the server also answers the notification (three reply lines).  The harness
records no session-level desynchronization ERROR anywhere: its entire return
value is the response list, in which the notification's reply line has been
silently paired with the following request, and the genuine final reply is
left unconsumed and discarded at teardown. -/
theorem desync_silently_mispaired_cex :
    send_mcp_requests_session [reqInit, notifMsg, reqTools]
        (SessionPath.normal
          [RawLine.json replyInit, RawLine.json replyNotif, RawLine.json replyTools])
      = [some replyInit, none, some replyNotif]
    ∧ (sessionLoop [reqInit, notifMsg, reqTools]
        [RawLine.json replyInit, RawLine.json replyNotif, RawLine.json replyTools]).2.1
      = [RawLine.json replyTools] :=
  ⟨rfl, rfl⟩

/-- C2 as amended: `send_mcp_requests_session` performs no leftover-line
check after a scenario — whatever remains on stdout is dropped with the
process and nothing in the return value distinguishes this — and when a line
arrives for a notification, that line is consumed as the next id-carrying
message's response rather than surfacing as a session-level error. -/
theorem leftover_lines_dropped_and_mispaired :
    ∀ (l1 l2 l3 : RawLine) (s : List RawLine),
      sessionLoop [reqInit, notifMsg, reqTools] (l1 :: l2 :: l3 :: s)
        = ([lineToResponse l1, none, lineToResponse l2], l3 :: s, 2)
      ∧ send_mcp_requests_session [reqInit, notifMsg, reqTools]
          (SessionPath.normal (l1 :: l2 :: l3 :: s))
        = [lineToResponse l1, none, lineToResponse l2] := by
  intro l1 l2 l3 s
  exact ⟨rfl, rfl⟩

/-- C9: a reply line that fails to parse as JSON records None for its message
(ERROR in the protocol driver), and the correlator advances: the rest of the
scenario is processed exactly as a fresh session on the remaining stream, so
all later messages are still sent, read and validated.  In
src/test-mcp-protocol.py, an unparsable first stdout line makes the test case
an ERROR with no recorded response. -/
theorem malformed_reply_absent_and_advance :
    (∀ (req : PyDict) (rest : List PyDict) (stream : List RawLine), hasId req = true →
      sessionLoop (req :: rest) (RawLine.malformed :: stream)
        = (none :: (sessionLoop rest stream).1, (sessionLoop rest stream).2.1,
            (sessionLoop rest stream).2.2 + 1))
    ∧ ∀ (request : PyDict) (name : String) (ef : List String),
        run_test_case request name ef false true RawLine.malformed
          = (TestResult.ERROR, none) := by
  constructor
  · intro req rest stream h
    simp [sessionLoop, h, lineToResponse]
  · intro request name ef
    rfl

/-- Witness for C9: a malformed first reply in a two-request session leaves
the first response absent while the second request is still served. -/
theorem malformed_reply_absent_and_advance_applied :
    sessionLoop [reqInit, reqTools] [RawLine.malformed, RawLine.json replyTools]
      = ([none, some replyTools], [], 2) := by
  have h := malformed_reply_absent_and_advance.1 reqInit [reqTools]
    [RawLine.json replyTools] rfl
  simpa [sessionLoop, reqTools, hasId, List.lookup, lineToResponse] using h

/-- C10: on every path of `send_mcp_requests_session` — the normal loop
(empty lines, parse failures and per-read errors all record None) and the
exception handlers for launch failures, timeouts and broken pipes (which
return `[None] * len(requests)`) — the result has exactly one entry per
request, and every notification position holds None. -/
theorem session_length_and_notification_positions :
    ∀ (reqs : List PyDict) (path : SessionPath),
      (send_mcp_requests_session reqs path).length = reqs.length
      ∧ ∀ i, i < reqs.length → hasId (reqs.getD i []) = false →
          (send_mcp_requests_session reqs path).getD i (some Json.null) = none := by
  intro reqs path
  cases path with
  | normal stream =>
    refine ⟨sessionLoop_length reqs stream, fun i hi hn => ?_⟩
    rw [send_mcp_requests_session, sessionLoop_getD reqs stream i (some Json.null) hi, hn]
    simp
  | aborted n =>
    refine ⟨by simp [send_mcp_requests_session], fun i hi _ => ?_⟩
    simp [send_mcp_requests_session, List.getD, List.getElem?_replicate, hi]

/-- Witness for C10: the aborted path on a two-message scenario still yields
one entry per request with None at the notification position. -/
theorem session_length_and_notification_positions_applied :
    (send_mcp_requests_session [reqInit, notifMsg] (SessionPath.aborted 0)).getD 1
        (some Json.null) = none
    ∧ (send_mcp_requests_session [reqInit, notifMsg] (SessionPath.aborted 0)).length = 2 := by
  have h := session_length_and_notification_positions [reqInit, notifMsg]
    (SessionPath.aborted 0)
  exact ⟨h.2 1 (by decide) rfl, h.1⟩

theorem jsonrpcCheck_shape (r : PyDict) (v : Viol) (h : v ∈ jsonrpcCheck r) :
    v = Viol.badJsonrpc := by
  unfold jsonrpcCheck at h
  split at h <;> simp_all

theorem resultErrorCheck_shape (r : PyDict) (v : Viol) (h : v ∈ resultErrorCheck r) :
    v = Viol.neitherResultNorError ∨ v = Viol.bothResultAndError := by
  simp only [resultErrorCheck] at h
  split_ifs at h <;> simp_all

theorem errorStructCheck_shape (r : PyDict) (v : Viol) (h : v ∈ errorStructCheck r) :
    v = Viol.errorNotObject ∨ v = Viol.errorMissingCode ∨ v = Viol.errorCodeNotInt ∨
      v = Viol.errorMissingMessage ∨ v = Viol.errorMessageNotString := by
  unfold errorStructCheck at h
  split at h
  · simp_all
  · split at h
    · rw [List.mem_append] at h
      rcases h with h | h
      · unfold codeCheck at h
        split at h <;> simp_all
      · unfold msgCheck at h
        split at h <;> simp_all
    · simp_all

theorem idCheck_shape (r : PyDict) (eid : Json) (v : Viol) (h : v ∈ idCheck r eid) :
    (∃ e a, v = Viol.idMismatch e a) ∨ ∃ e, v = Viol.missingId e := by
  unfold idCheck at h
  split at h <;> split at h <;> simp_all

/-- A request whose identifier field is present but json null. -/
def reqNullId : PyDict :=
  [("jsonrpc", Json.str "2.0"), ("id", Json.null), ("method", Json.str "initialize")]

/-- A response with no `"id"` field at all. -/
def respNoId : PyDict := [("jsonrpc", Json.str "2.0"), ("result", Json.obj [])]

/-- C3 counterexample: `reqNullId` carries an identifier (the field is
present, value json null), the response has no `"id"` field, yet
`validate_json_rpc` — fed `request.get("id")`, which collapses a null id to
None — returns no violation at all, against the claim that a missing
response id must be flagged for every id-carrying message. -/
theorem null_id_missing_echo_unflagged_cex :
    hasId reqNullId = true
    ∧ validate_json_rpc respNoId (dictGet reqNullId "id") = [] := by
  constructor
  · rfl
  · simp [validate_json_rpc, jsonrpcCheck, idCheck, resultErrorCheck, errorStructCheck,
      dictGet, pyEq, Json.isNull, List.lookup, reqNullId, respNoId]

/-- C3 as amended: when the response carries an `"id"` field, it is compared
with the message's id under Python equality and a mismatch is flagged (this
includes messages whose id is null or the empty string); but when the
response has no `"id"` field, the "missing id" violation fires only for a
non-null message id — a message with id null has the missing-id check
silently skipped, because the harness forwards `request.get("id")`, making
null indistinguishable from an absent field at that point. -/
theorem id_mismatch_flagged_null_missing_skipped :
    ∀ (r : PyDict) (eid : Json),
      (∀ actual, List.lookup "id" r = some actual →
        (Viol.idMismatch eid actual ∈ validate_json_rpc r eid ↔ pyEq eid actual = false))
      ∧ (List.lookup "id" r = none →
        (Viol.missingId eid ∈ validate_json_rpc r eid ↔ eid.isNull = false)) := by
  intro r eid
  constructor
  · intro actual hlook
    simp only [validate_json_rpc, List.mem_append]
    constructor
    · intro h
      rcases h with ((h | h) | h) | h
      · exact absurd (jsonrpcCheck_shape r _ h) (by simp)
      · unfold idCheck at h
        rw [hlook] at h
        split at h <;> simp_all
      · rcases resultErrorCheck_shape r _ h with h | h <;> simp_all
      · rcases errorStructCheck_shape r _ h with h | h | h | h | h <;> simp_all
    · intro h
      refine Or.inl (Or.inl (Or.inr ?_))
      unfold idCheck
      rw [hlook]
      simp [h]
  · intro hlook
    simp only [validate_json_rpc, List.mem_append]
    constructor
    · intro h
      rcases h with ((h | h) | h) | h
      · exact absurd (jsonrpcCheck_shape r _ h) (by simp)
      · unfold idCheck at h
        rw [hlook] at h
        split at h <;> simp_all
      · rcases resultErrorCheck_shape r _ h with h | h <;> simp_all
      · rcases errorStructCheck_shape r _ h with h | h | h | h | h <;> simp_all
    · intro h
      refine Or.inl (Or.inl (Or.inr ?_))
      unfold idCheck
      rw [hlook]
      simp [h]

/-- Witness for the amended C3: a response echoing id 1 for a message with
id 2 is flagged with an id-mismatch violation. -/
theorem id_mismatch_flagged_null_missing_skipped_applied :
    Viol.idMismatch (Json.int 2) (Json.int 1) ∈
      validate_json_rpc [("id", Json.int 1)] (Json.int 2) := by
  have h := (id_mismatch_flagged_null_missing_skipped [("id", Json.int 1)] (Json.int 2)).1
    (Json.int 1) rfl
  rw [h]
  simp [pyEq]

theorem mem_resultErrorCheck_both (r : PyDict) :
    Viol.bothResultAndError ∈ resultErrorCheck r ↔
      ((List.lookup "result" r).isSome && (List.lookup "error" r).isSome) = true := by
  simp only [resultErrorCheck]
  generalize (List.lookup "result" r).isSome = hr
  generalize (List.lookup "error" r).isSome = he
  cases hr <;> cases he <;> simp

theorem mem_resultErrorCheck_neither (r : PyDict) :
    Viol.neitherResultNorError ∈ resultErrorCheck r ↔
      ((List.lookup "result" r).isSome || (List.lookup "error" r).isSome) = false := by
  simp only [resultErrorCheck]
  generalize (List.lookup "result" r).isSome = hr
  generalize (List.lookup "error" r).isSome = he
  cases hr <;> cases he <;> simp

theorem mem_vjr_resultError (r : PyDict) (eid : Json) (v : Viol)
    (hv : v = Viol.bothResultAndError ∨ v = Viol.neitherResultNorError) :
    v ∈ validate_json_rpc r eid ↔ v ∈ resultErrorCheck r := by
  simp only [validate_json_rpc, List.mem_append]
  constructor
  · intro h
    rcases h with ((h | h) | h) | h
    · have h2 := jsonrpcCheck_shape r _ h
      rcases hv with hv | hv <;> simp_all
    · have h2 := idCheck_shape r eid _ h
      rcases h2 with ⟨e, a, h2⟩ | ⟨e, h2⟩ <;> rcases hv with hv | hv <;> simp_all
    · exact h
    · have h2 := errorStructCheck_shape r _ h
      rcases hv with hv | hv <;> rcases h2 with h2 | h2 | h2 | h2 | h2 <;> simp_all
  · intro h
    exact Or.inl (Or.inr h)

/-- C4: `validate_json_rpc` flags "both result and error" exactly when both
fields are present and "missing both" exactly when neither is, so a response
with exactly one of the two passes this check; and `validate_response` in
src/test-mcp-server.py likewise never succeeds when the two fields are both
present or both absent. -/
theorem result_error_exclusivity :
    ∀ (r : PyDict) (eid : Json) (keys : List String) (ae : Bool),
      (Viol.bothResultAndError ∈ validate_json_rpc r eid ↔
        ((List.lookup "result" r).isSome && (List.lookup "error" r).isSome) = true)
      ∧ (Viol.neitherResultNorError ∈ validate_json_rpc r eid ↔
        ((List.lookup "result" r).isSome || (List.lookup "error" r).isSome) = false)
      ∧ ((List.lookup "result" r).isSome = (List.lookup "error" r).isSome →
        ∃ m, validate_response (some r) eid keys ae = Except.ok (false, m)) := by
  intro r eid keys ae
  refine ⟨(mem_vjr_resultError r eid _ (Or.inl rfl)).trans (mem_resultErrorCheck_both r),
    (mem_vjr_resultError r eid _ (Or.inr rfl)).trans (mem_resultErrorCheck_neither r), ?_⟩
  intro hsame
  simp only [validate_response]
  rw [hsame]
  rcases Bool.dichotomy ((List.lookup "error" r).isSome) with hb | hb <;> rw [hb] <;>
    split_ifs <;>
      first
        | exact ⟨_, rfl⟩
        | simp_all only [Bool.not_true, Bool.not_false, Bool.and_self, Bool.and_true,
            Bool.true_and, Bool.and_false, Bool.false_and, Bool.false_eq_true,
            not_false_iff, not_true]

/-- Witness for C4: a response carrying both a result and an error is
flagged by `validate_json_rpc` and rejected by `validate_response`. -/
theorem result_error_exclusivity_applied :
    Viol.bothResultAndError ∈
      validate_json_rpc [("result", Json.obj []), ("error", Json.obj [])] Json.null
    ∧ ∃ m, validate_response (some [("result", Json.obj []), ("error", Json.obj [])])
        Json.null [] false = Except.ok (false, m) := by
  have h := result_error_exclusivity [("result", Json.obj []), ("error", Json.obj [])]
    Json.null [] false
  exact ⟨h.1.mpr (by rfl), h.2.2 (by rfl)⟩

/-- Does a violation come from the error-structure block of
`validate_json_rpc`? -/
def isErrorShapeViol : Viol → Bool
  | .errorNotObject => true
  | .errorMissingCode => true
  | .errorCodeNotInt => true
  | .errorMissingMessage => true
  | .errorMessageNotString => true
  | _ => false

/-- Follows the spec's wording for rule 4 of the Validator: the error value
is an object containing an integer `code` and a string `message` (integer in
the source's sense, `isinstance(..., int)`). -/
def errorShapeOk (e : Json) : Bool :=
  match e with
  | .obj fs =>
    (match List.lookup "code" fs with
     | some c => pyIsInt c
     | none => false) &&
    (match List.lookup "message" fs with
     | some m => pyIsStr m
     | none => false)
  | _ => false

theorem codeCheck_any (fs : PyDict) :
    (codeCheck fs).any isErrorShapeViol
      = !(match List.lookup "code" fs with | some c => pyIsInt c | none => false) := by
  unfold codeCheck
  split
  · rename_i heq
    rw [heq]
    rfl
  · rename_i c heq
    rw [heq]
    split_ifs with h <;> simp [h, isErrorShapeViol]

theorem msgCheck_any (fs : PyDict) :
    (msgCheck fs).any isErrorShapeViol
      = !(match List.lookup "message" fs with | some m => pyIsStr m | none => false) := by
  unfold msgCheck
  split
  · rename_i heq
    rw [heq]
    rfl
  · rename_i m heq
    rw [heq]
    split_ifs with h <;> simp [h, isErrorShapeViol]

theorem vjr_any_error (r : PyDict) (eid : Json) :
    (validate_json_rpc r eid).any isErrorShapeViol
      = (errorStructCheck r).any isErrorShapeViol := by
  simp only [validate_json_rpc, List.any_append]
  have h1 : (jsonrpcCheck r).any isErrorShapeViol = false := by
    unfold jsonrpcCheck
    split <;> rfl
  have h2 : (idCheck r eid).any isErrorShapeViol = false := by
    unfold idCheck
    split <;> split_ifs <;> rfl
  have h3 : (resultErrorCheck r).any isErrorShapeViol = false := by
    simp only [resultErrorCheck]
    split_ifs <;> rfl
  rw [h1, h2, h3]
  simp

/-- C5: for a response carrying an `"error"` field, `validate_json_rpc`
produces an error-structure violation exactly when the error value is not an
object with an integer `code` and a string `message`; and with errors not
allowed, `validate_response` in src/test-mcp-server.py rejects the response
outright on the mere presence of `"error"` (its unexpected-error return). -/
theorem error_structure_and_unexpected_error :
    ∀ (r : PyDict) (eid : Json) (e : Json), List.lookup "error" r = some e →
      ((validate_json_rpc r eid).any isErrorShapeViol = true ↔ errorShapeOk e = false)
      ∧ ∀ (keys : List String), ∃ m,
          validate_response (some r) eid keys false = Except.ok (false, m) := by
  intro r eid e hlook
  constructor
  · rw [vjr_any_error r eid]
    unfold errorStructCheck
    rw [hlook]
    cases e with
    | obj fs =>
      simp only [List.any_append, codeCheck_any, msgCheck_any, errorShapeOk]
      generalize (match List.lookup "code" fs with
        | some c => pyIsInt c | none => false) = cOk
      generalize (match List.lookup "message" fs with
        | some m => pyIsStr m | none => false) = mOk
      cases cOk <;> cases mOk <;> simp
    | null => simp [errorShapeOk, isErrorShapeViol]
    | bool b => simp [errorShapeOk, isErrorShapeViol]
    | int n => simp [errorShapeOk, isErrorShapeViol]
    | str s => simp [errorShapeOk, isErrorShapeViol]
    | arr xs => simp [errorShapeOk, isErrorShapeViol]
  · intro keys
    simp only [validate_response]
    rw [hlook]
    simp only [Option.isSome_some, Bool.and_true, Bool.not_true, Bool.and_false]
    rcases Bool.dichotomy ((List.lookup "result" r).isSome) with hr | hr <;> rw [hr] <;>
      split_ifs <;> exact ⟨_, rfl⟩

/-- Witness for C5: an error value that is a bare string yields an
error-structure violation, and `validate_response` with errors disallowed
rejects the response. -/
theorem error_structure_and_unexpected_error_applied :
    ((validate_json_rpc [("jsonrpc", Json.str "2.0"), ("error", Json.str "boom")]
        Json.null).any isErrorShapeViol = true)
    ∧ ∃ m, validate_response
        (some [("jsonrpc", Json.str "2.0"), ("error", Json.str "boom")])
        Json.null [] false = Except.ok (false, m) := by
  have h := error_structure_and_unexpected_error
    [("jsonrpc", Json.str "2.0"), ("error", Json.str "boom")] Json.null
    (Json.str "boom") rfl
  exact ⟨h.1.mpr rfl, h.2 []⟩

/-- C6 as amended: `validate_expected_fields` in src/test-mcp-protocol.py
does collect every unresolved dotted path as an individual violation in one
pass, in order, never stopping at the first missing field; it is
`validate_response` in src/test-mcp-server.py that instead returns at the
first missing key (see its counterexample). -/
theorem expected_fields_collects_all :
    ∀ (r : PyDict) (fields : List String),
      validate_expected_fields r fields
        = (fields.filter (fun f => !walkPath (Json.obj r) (f.splitOn "."))).map
            Viol.missingField := by
  intro r fields
  induction fields with
  | nil => rfl
  | cons f rest ih =>
    by_cases h : walkPath (Json.obj r) (f.splitOn ".")
    · simp [validate_expected_fields, List.filter_cons, h, ih]
    · simp [validate_expected_fields, List.filter_cons, h, ih]

/-- The JSON values on which Python `key in value` raises TypeError:
null, booleans and numbers. -/
def nonContainer : Json → Bool
  | .null => true
  | .bool _ => true
  | .int _ => true
  | _ => false

/-- C7 as amended: `validate_json_rpc` and `validate_expected_fields` are
total (every dynamic access in them is guarded and they are embedded as pure
functions), but the two validators that test membership on an unguarded
`result` raise TypeError whenever the result value is a non-container —
`validate_mcp_specific` on its required-field loop and `validate_response`
on its expected-keys loop — so "never raises" fails for them. -/
theorem field_membership_raises_on_scalar_result :
    ∀ (r : Json), nonContainer r = true →
      validate_mcp_specific "Initialize Protocol"
          [("jsonrpc", Json.str "2.0"), ("id", Json.int 1), ("result", r)]
        = Except.error PyErr.typeError
      ∧ ∀ (k : String) (ks : List String),
          validate_response (some [("jsonrpc", Json.str "2.0"), ("result", r)])
            Json.null (k :: ks) false = Except.error PyErr.typeError := by
  intro r hr
  cases r with
  | null =>
    refine ⟨rfl, fun k ks => ?_⟩
    simp [validate_response, dictGet, List.lookup, pyEq, Json.isNull, checkKeys, pyIn]
  | bool b =>
    refine ⟨rfl, fun k ks => ?_⟩
    simp [validate_response, dictGet, List.lookup, pyEq, Json.isNull, checkKeys, pyIn]
  | int n =>
    refine ⟨rfl, fun k ks => ?_⟩
    simp [validate_response, dictGet, List.lookup, pyEq, Json.isNull, checkKeys, pyIn]
  | str s => simp [nonContainer] at hr
  | arr xs => simp [nonContainer] at hr
  | obj fs => simp [nonContainer] at hr

/-- Witness for the amended C7: both raising validators raise TypeError on
the result value 5. -/
theorem field_membership_raises_on_scalar_result_applied :
    validate_mcp_specific "Initialize Protocol"
        [("jsonrpc", Json.str "2.0"), ("id", Json.int 1), ("result", Json.int 5)]
      = Except.error PyErr.typeError
    ∧ validate_response (some [("jsonrpc", Json.str "2.0"), ("result", Json.int 5)])
        Json.null ["contents"] false = Except.error PyErr.typeError := by
  have h := field_membership_raises_on_scalar_result (Json.int 5) rfl
  exact ⟨h.1, h.2 "contents" []⟩

/-- Is a protocol-script outcome a PASS? -/
def isPASS : TestResult → Bool
  | .PASS => true
  | _ => false

/-- C8 counterexample: `DatabaseMcpTester.run` in src/test-mcp-server.py
exits 0 even when its recorded results contain a failure — the suite's
failure state never reaches the process exit code in that script. -/
theorem server_script_exits_zero_on_failure_cex :
    server_run_exit_code true [false] = 0 ∧ [false].all (fun b => b) = false :=
  ⟨rfl, rfl⟩

/-- C8 as amended: src/test-mcp-protocol.py exits 0 exactly when every
outcome is PASS and 1 otherwise (any FAIL or ERROR); src/test-mcp-server.py
exits 0 after the suite regardless of outcomes (a non-zero exit there occurs
only for missing prerequisites). -/
theorem exit_codes_by_script :
    (∀ rs : List TestResult, protocol_exit_code rs = 0 ↔ rs.all isPASS = true)
    ∧ ∀ results : List Bool, server_run_exit_code true results = 0 := by
  constructor
  · intro rs
    induction rs with
    | nil => simp [protocol_exit_code, countResults]
    | cons t rest ih =>
      cases t <;>
        simp [protocol_exit_code, countResults, List.countP_cons, isPASS] at ih ⊢ <;>
        simp [ih]
  · intro results
    rfl
